import Mathlib

/-!
Verification development for the safety-monitoring core of the repository:
a shallow embedding of `src/examples/embedded/safety/fault_handler.c` and
`src/examples/embedded/safety/watchdog.cpp`, followed by theorems settling
the stated properties of the CPU-fault classifier, the fault log, the fault
handler's log-before-act discipline, and the watchdog supervisor.
-/

namespace Tracy

/-! ## Fault handler data model (fault_handler.c) -/

/-- Embedding of `fault_record_t` from fault_handler.c: a CPU register and
fault-status snapshot with a trailing integrity checksum. All fields are
`uint32_t` registers or values, modelled as natural numbers. -/
structure fault_record_t where
  r0 : Nat
  r1 : Nat
  r2 : Nat
  r3 : Nat
  r12 : Nat
  lr : Nat
  pc : Nat
  psr : Nat
  cfsr : Nat
  hfsr : Nat
  dfsr : Nat
  mmfar : Nat
  bfar : Nat
  afsr : Nat
  timestamp : Nat
  crc : Nat
deriving DecidableEq

/-- Embedding of `fault_class_t` from fault_handler.c. -/
inductive fault_class_t where
  | FAULT_CLASS_RECOVERABLE
  | FAULT_CLASS_DEGRADED
  | FAULT_CLASS_FATAL
deriving DecidableEq

/-- Ring-buffer capacity `FAULT_LOG_MAX_ENTRIES` from fault_handler.c. -/
def FAULT_LOG_MAX_ENTRIES : Nat := 16

/-- Modelled from the spec: `crc32_calculate` (declared in crc32.h; its
implementation is not under src/) computes an integrity checksum over all
bytes of a `fault_record_t` except the trailing `crc` field, i.e. it is a
deterministic function of every field other than `crc` ("a checksum computed
over all other fields"). The concrete mixing function below is a stand-in
with exactly that interface; no claim settled here depends on the particular
checksum values, only on determinism and on the ignored `crc` field. -/
def crc32_calculate (r : fault_record_t) : Nat :=
  ([r.r0, r.r1, r.r2, r.r3, r.r12, r.lr, r.pc, r.psr, r.cfsr, r.hfsr, r.dfsr,
    r.mmfar, r.bfar, r.afsr, r.timestamp].foldl (fun acc w => acc * 31 + w) 5381)
    % 4294967296

/-- The all-zero fault record, used as the `getD` default when indexing the
fixed-capacity log (never actually reachable at in-range indices). -/
def zeroRec : fault_record_t := ⟨0, 0, 0, 0, 0, 0, 0, 0, 0, 0, 0, 0, 0, 0, 0, 0⟩

/-- Truncation to a 32-bit unsigned value. -/
def u32 (n : Nat) : Nat := n % 4294967296

/-- Wrapping `uint32_t` subtraction `a - b`. -/
def u32_sub (a b : Nat) : Nat := (u32 a + (4294967296 - u32 b)) % 4294967296

/-- State of the fault log: `g_fault_log` (a FAULT_LOG_MAX_ENTRIES-slot array,
modelled as a list of that length) and the total-appended counter
`g_fault_count`, a `uint32_t` that wraps back to 0 after 2^32 appends. -/
structure FaultLogState where
  log : List fault_record_t
  count : Nat
deriving DecidableEq

/-- Record as it sits in a log slot after `store_fault_record`: the appended
record with its `crc` field overwritten by the checksum of the other fields
(lines LLR-FAULT-010/011 of fault_handler.c). -/
def mk_stored (r : fault_record_t) : fault_record_t := { r with crc := crc32_calculate r }

/-- Embedding of `store_fault_record` from fault_handler.c: write the record
into slot `g_fault_count % FAULT_LOG_MAX_ENTRIES`, compute and store the CRC
over all other fields, and increment the total-appended counter
(`g_fault_count++` in `uint32_t` arithmetic, wrapping at 2^32). -/
def store_fault_record (st : FaultLogState) (record : fault_record_t) : FaultLogState :=
  { log := st.log.set (st.count % FAULT_LOG_MAX_ENTRIES) (mk_stored record),
    count := u32 (st.count + 1) }

/-- Repeated `store_fault_record` over a sequence of appends. -/
def append_all (st : FaultLogState) (rs : List fault_record_t) : FaultLogState :=
  rs.foldl store_fault_record st

/-- Fault log in its cleared/fresh configuration: zeroed slots, count 0. -/
def init_log : FaultLogState :=
  { log := List.replicate FAULT_LOG_MAX_ENTRIES zeroRec, count := 0 }

/-- Embedding of `fault_clear_log` from fault_handler.c: reset the counter and
invalidate every slot by zeroing its `crc` field. -/
def fault_clear_log (st : FaultLogState) : FaultLogState :=
  { log := st.log.map (fun r => { r with crc := 0 }), count := 0 }

/-- The loop bound of `fault_get_log` (fault_handler.c line 293):
`count = (g_fault_count < max_count) ? g_fault_count : max_count`. Note that
this is the minimum with the total-appended counter, not with the number of
records the 16-slot ring actually stores. -/
def read_count (st : FaultLogState) (max_count : Nat) : Nat :=
  if st.count < max_count then st.count else max_count

/-- One iteration of the `fault_get_log` copy loop (fault_handler.c lines
295-311): recompute the CRC of slot `(g_fault_count - count + i) % 16`; on a
match copy the record to `buffer[i]`, otherwise overwrite `buffer[i].pc` with
`0xDEADBEEF` and `buffer[i].timestamp` with 0, leaving the caller's other
buffer fields in place (only those two fields are assigned in the C). -/
def read_entry (st : FaultLogState) (buffer : List fault_record_t) (count i : Nat) :
    fault_record_t :=
  if (st.log.getD ((st.count - count + i) % FAULT_LOG_MAX_ENTRIES) zeroRec).crc =
      crc32_calculate (st.log.getD ((st.count - count + i) % FAULT_LOG_MAX_ENTRIES) zeroRec) then
    st.log.getD ((st.count - count + i) % FAULT_LOG_MAX_ENTRIES) zeroRec
  else
    { buffer.getD i zeroRec with pc := 0xDEADBEEF, timestamp := 0 }

/-- Embedding of `fault_get_log` from fault_handler.c: the first
`read_count st max_count` entries of the caller's buffer are filled by the
copy loop. Returns the filled prefix of the buffer together with the
returned count. -/
def fault_get_log (st : FaultLogState) (buffer : List fault_record_t) (max_count : Nat) :
    List fault_record_t × Nat :=
  ((List.range (read_count st max_count)).map
      (read_entry st buffer (read_count st max_count)),
   read_count st max_count)

/-! ## CFSR classifier (analyze_cfsr) -/

/-- MMFSR block of `analyze_cfsr` (fault_handler.c lines 76-83): inside the
`cfsr & 0xFF` guard, IACCVIOL (bit 0) and DACCVIOL (bit 1) each return FATAL;
any other MMFSR bit falls through (`none`). -/
def checkMM (cfsr : Nat) : Option fault_class_t :=
  if cfsr &&& 0xFF ≠ 0 then
    if cfsr &&& (1 <<< 0) ≠ 0 then some .FAULT_CLASS_FATAL
    else if cfsr &&& (1 <<< 1) ≠ 0 then some .FAULT_CLASS_FATAL
    else none
  else none

/-- BFSR block of `analyze_cfsr` (fault_handler.c lines 86-96): inside the
`cfsr & 0xFF00` guard, IBUSERR (bit 8) returns FATAL, PRECISERR (bit 9) and
IMPRECISERR (bit 10) return DEGRADED; other BFSR bits fall through. -/
def checkBus (cfsr : Nat) : Option fault_class_t :=
  if cfsr &&& 0xFF00 ≠ 0 then
    if cfsr &&& (1 <<< 8) ≠ 0 then some .FAULT_CLASS_FATAL
    else if cfsr &&& (1 <<< 9) ≠ 0 then some .FAULT_CLASS_DEGRADED
    else if cfsr &&& (1 <<< 10) ≠ 0 then some .FAULT_CLASS_DEGRADED
    else none
  else none

/-- UFSR block of `analyze_cfsr` (fault_handler.c lines 99-112): inside the
`cfsr & 0xFFFF0000` guard, UNDEFINSTR (bit 16), INVSTATE (bit 17) and INVPC
(bit 18) return FATAL, DIVBYZERO (bit 24) returns RECOVERABLE; other UFSR
bits fall through. -/
def checkUsage (cfsr : Nat) : Option fault_class_t :=
  if cfsr &&& 0xFFFF0000 ≠ 0 then
    if cfsr &&& (1 <<< 16) ≠ 0 then some .FAULT_CLASS_FATAL
    else if cfsr &&& (1 <<< 17) ≠ 0 then some .FAULT_CLASS_FATAL
    else if cfsr &&& (1 <<< 18) ≠ 0 then some .FAULT_CLASS_FATAL
    else if cfsr &&& (1 <<< 24) ≠ 0 then some .FAULT_CLASS_RECOVERABLE
    else none
  else none

/-- Embedding of `analyze_cfsr` from fault_handler.c: the three bit groups are
tested in fixed order (memory management, then bus, then usage), the first
block that returns a classification wins, and an unmatched word defaults to
FATAL (line 114). -/
def analyze_cfsr (cfsr : Nat) : fault_class_t :=
  match checkMM cfsr with
  | some fc => fc
  | none =>
    match checkBus cfsr with
    | some fc => fc
    | none =>
      match checkUsage cfsr with
      | some fc => fc
      | none => .FAULT_CLASS_FATAL

/-! ## Common fault handler (fault_handler_common) -/

/-- Snapshot of the SCB fault-status registers read by `fault_handler_common`. -/
structure SCBRegs where
  cfsr : Nat
  hfsr : Nat
  dfsr : Nat
  mmfar : Nat
  bfar : Nat
  afsr : Nat
deriving DecidableEq

/-- Externally visible effects of `fault_handler_common`, in program order:
the NVM store of the fault record, the write-back that clears the decoded
fault-status bits, and the escalation taken (resume / degraded mode /
safe state). -/
inductive HandlerEvent where
  | storeRecord
  | clearFaultStatus
  | resume
  | degrade
  | safeState
deriving DecidableEq

/-- True exactly on the escalation outcomes of the handler switch statement
(fault_handler.c lines 186-202). -/
def isEscalation : HandlerEvent → Bool
  | .resume => true
  | .degrade => true
  | .safeState => true
  | _ => false

/-- The action selected by the escalation switch in `fault_handler_common`:
RECOVERABLE resumes (after advancing the saved pc), DEGRADED enters degraded
mode, FATAL (and the switch default) enters the safe state. -/
def escalation_action : fault_class_t → HandlerEvent
  | .FAULT_CLASS_RECOVERABLE => .resume
  | .FAULT_CLASS_DEGRADED => .degrade
  | .FAULT_CLASS_FATAL => .safeState

/-- Register capture of `fault_handler_common` (lines 157-173): the stacked
r0-r3, r12, lr, pc, psr, the SCB fault-status registers and the system tick.
The local record's `crc` field is uninitialized in the C and is overwritten
by `store_fault_record`; it is modelled as 0. -/
def capture_record (stack_frame : List Nat) (scb : SCBRegs) (tick : Nat) : fault_record_t :=
  { r0 := stack_frame.getD 0 0, r1 := stack_frame.getD 1 0, r2 := stack_frame.getD 2 0,
    r3 := stack_frame.getD 3 0, r12 := stack_frame.getD 4 0, lr := stack_frame.getD 5 0,
    pc := stack_frame.getD 6 0, psr := stack_frame.getD 7 0,
    cfsr := scb.cfsr, hfsr := scb.hfsr, dfsr := scb.dfsr,
    mmfar := scb.mmfar, bfar := scb.bfar, afsr := scb.afsr,
    timestamp := tick, crc := 0 }

/-- Embedding of `fault_handler_common` from fault_handler.c: capture the
record, store it to the fault log, classify the CFSR, clear the fault-status
bits, then escalate; in the RECOVERABLE case the saved pc in the stack frame
is advanced by 2 (Thumb). Returns the updated log, the (possibly adjusted)
stack frame, and the ordered effect trace. -/
def fault_handler_common (st : FaultLogState) (stack_frame : List Nat) (scb : SCBRegs)
    (tick : Nat) : FaultLogState × List Nat × List HandlerEvent :=
  let record := capture_record stack_frame scb tick
  let st1 := store_fault_record st record
  let fault_class := analyze_cfsr record.cfsr
  let stack1 :=
    if fault_class = .FAULT_CLASS_RECOVERABLE then
      stack_frame.set 6 (u32 (stack_frame.getD 6 0 + 2))
    else stack_frame
  (st1, stack1, [.storeRecord, .clearFaultStatus, escalation_action fault_class])

/-! ## Watchdog supervisor (watchdog.cpp) -/

/-- `WDT_DEFAULT_TIMEOUT_MS` from watchdog.cpp. -/
def WDT_DEFAULT_TIMEOUT_MS : Nat := 100

/-- `WDT_TIMING_TOLERANCE_PERCENT` from watchdog.cpp. -/
def WDT_TIMING_TOLERANCE_PERCENT : Nat := 10

/-- Modelled from the spec: the hardware watchdog clock rate `WDT_CLOCK_HZ`
is declared in hw_wdt.h, which is not under src/; register-level hardware
programming details are out of scope per the spec, and no claim depends on
the value. A typical low-speed oscillator rate is used. -/
def WDT_CLOCK_HZ : Nat := 32768

/-- Member state of `safety::Watchdog` (watchdog.cpp lines 159-163). All four
numeric members are `uint32_t`: the millisecond clock arithmetic and the two
diagnostics counters (`m_kick_count++` / `m_late_kick_count++`) wrap at 2^32,
modelled with explicit 32-bit truncation. -/
structure WatchdogState where
  m_timeout_ms : Nat
  m_started : Bool
  m_last_kick_time : Nat
  m_kick_count : Nat
  m_late_kick_count : Nat
deriving DecidableEq

/-- Externally visible effects of the watchdog member functions, in program
order: diagnostic-log entries (`DiagLog::error/info/warn/emergency`), hardware
register writes, and the safe-state transition of the timeout handler. -/
inductive WdtEvent where
  | errorInvalidTimeout (timeout_ms : Nat)
  | hwConfigure (ticks : Nat)
  | infoStarted (timeout_ms : Nat)
  | warnAlreadyStarted
  | warnLateKick (elapsed expected : Nat)
  | hwKick
  | emergencyTimeout
  | safeStateEnter
deriving DecidableEq

/-- `ms_to_ticks` from watchdog.cpp: `(ms * WDT_CLOCK_HZ) / 1000U` in
`uint32_t` arithmetic. -/
def ms_to_ticks (ms : Nat) : Nat := u32 (ms * WDT_CLOCK_HZ) / 1000

/-- Embedding of the `Watchdog` constructor (watchdog.cpp lines 54-66): the
members are initialized from the argument, then an out-of-range timeout
(below 10 ms or above 1000 ms) logs `WDT_INVALID_TIMEOUT` and overwrites
`m_timeout_ms` with the 100 ms default. No status is returned. -/
def Watchdog_construct (timeout_ms : Nat) : WatchdogState × List WdtEvent :=
  let t := u32 timeout_ms
  if t < 10 ∨ t > 1000 then
    ({ m_timeout_ms := WDT_DEFAULT_TIMEOUT_MS, m_started := false, m_last_kick_time := 0,
       m_kick_count := 0, m_late_kick_count := 0 }, [.errorInvalidTimeout t])
  else
    ({ m_timeout_ms := t, m_started := false, m_last_kick_time := 0,
       m_kick_count := 0, m_late_kick_count := 0 }, [])

/-- Embedding of `Watchdog::start` (watchdog.cpp lines 80-98): if already
started, log `WDT_ALREADY_STARTED` and return false without touching any
state or hardware register; otherwise configure the hardware timeout and
control registers, set the started flag, stamp the baseline kick time, log
activation and return true. -/
def Watchdog_start (w : WatchdogState) (now : Nat) : WatchdogState × Bool × List WdtEvent :=
  if w.m_started then
    (w, false, [.warnAlreadyStarted])
  else
    ({ w with m_started := true, m_last_kick_time := u32 now },
     true,
     [.hwConfigure (ms_to_ticks w.m_timeout_ms), .infoStarted w.m_timeout_ms])

/-- Embedding of `Watchdog::kick` (watchdog.cpp lines 108-135): reject when
not started; compute the elapsed time since the previous kick in wrapping
`uint32_t` arithmetic; if it exceeds `timeout/2` plus the 10% tolerance,
increment the late-kick counter (`uint32_t`, wrapping) and log
`WDT_LATE_KICK`; always write the hardware kick register, stamp the kick
time, increment the kick counter (`uint32_t`, wrapping), and return whether
timing was within tolerance. -/
def Watchdog_kick (w : WatchdogState) (now : Nat) : WatchdogState × Bool × List WdtEvent :=
  if w.m_started then
    let elapsed := u32_sub now w.m_last_kick_time
    let expected_interval := w.m_timeout_ms / 2
    let tolerance := (expected_interval * WDT_TIMING_TOLERANCE_PERCENT) / 100
    if elapsed > expected_interval + tolerance then
      ({ w with m_late_kick_count := u32 (w.m_late_kick_count + 1),
                m_last_kick_time := u32 now, m_kick_count := u32 (w.m_kick_count + 1) },
       false,
       [.warnLateKick elapsed expected_interval, .hwKick])
    else
      ({ w with m_last_kick_time := u32 now, m_kick_count := u32 (w.m_kick_count + 1) },
       true,
       [.hwKick])
  else
    (w, false, [])

/-- Embedding of `WDT_IRQHandler` (watchdog.cpp lines 222-230): the hardware
timeout path logs an emergency diagnostic and then enters the safe state. -/
def WDT_IRQHandler_events : List WdtEvent := [.emergencyTimeout, .safeStateEnter]

/-- Calls a client can make on a watchdog after construction. -/
inductive WdtOp where
  | start (now : Nat)
  | kick (now : Nat)
deriving DecidableEq

/-- State transition of one client call (the returned status and diagnostics
are dropped). -/
def wdt_step (w : WatchdogState) (op : WdtOp) : WatchdogState :=
  match op with
  | .start now => (Watchdog_start w now).1
  | .kick now => (Watchdog_kick w now).1

/-- State reached from `w` by a sequence of client calls. -/
def wdt_run (w : WatchdogState) (ops : List WdtOp) : WatchdogState :=
  ops.foldl wdt_step w

/-! ## Bit-test toolbox for the CFSR guards -/

theorem and_shift_eq_zero (c k : Nat) (h : c.testBit k = false) : c &&& (1 <<< k) = 0 := by
  rw [Nat.shiftLeft_eq, one_mul, Nat.and_two_pow, h]
  simp

theorem and_shift_ne_zero (c k : Nat) (h : c.testBit k = true) : c &&& (1 <<< k) ≠ 0 := by
  rw [Nat.shiftLeft_eq, one_mul, Nat.and_two_pow, h]
  simp

theorem and_mask_ne (c m k : Nat) (hm : m.testBit k = true) (hc : c.testBit k = true) :
    c &&& m ≠ 0 := by
  intro h
  have h2 : (c &&& m).testBit k = false := by rw [h]; exact Nat.zero_testBit k
  rw [Nat.testBit_and, hc, hm] at h2
  exact Bool.noConfusion h2

theorem testBit_eq_false_of_guard (c k : Nat) (h : ¬ c &&& (1 <<< k) ≠ 0) :
    c.testBit k = false := by
  by_contra hb
  exact h (and_shift_ne_zero c k (by simpa using hb))

theorem testBit_eq_true_of_guard (c k : Nat) (h : c &&& (1 <<< k) ≠ 0) :
    c.testBit k = true := by
  by_contra hb
  exact h (and_shift_eq_zero c k (by simpa using hb))

/-! ## Classifier block lemmas -/

theorem checkMM_eq_none (c : Nat) (h0 : c.testBit 0 = false) (h1 : c.testBit 1 = false) :
    checkMM c = none := by
  simp only [checkMM, and_shift_eq_zero c 0 h0, and_shift_eq_zero c 1 h1]
  simp

theorem checkMM_eq_fatal (c : Nat) (h : c.testBit 0 = true ∨ c.testBit 1 = true) :
    checkMM c = some .FAULT_CLASS_FATAL := by
  unfold checkMM
  split_ifs with gO g0 g1
  · rfl
  · rfl
  · rcases h with hb | hb
    · exact absurd (testBit_eq_false_of_guard c 0 g0) (by simp [hb])
    · exact absurd (testBit_eq_false_of_guard c 1 g1) (by simp [hb])
  · rcases h with hb | hb
    · exact absurd (and_mask_ne c 255 0 (by decide) hb) (by simpa using gO)
    · exact absurd (and_mask_ne c 255 1 (by decide) hb) (by simpa using gO)

theorem checkBus_eq_none (c : Nat) (h8 : c.testBit 8 = false) (h9 : c.testBit 9 = false)
    (h10 : c.testBit 10 = false) : checkBus c = none := by
  simp only [checkBus, and_shift_eq_zero c 8 h8, and_shift_eq_zero c 9 h9,
    and_shift_eq_zero c 10 h10]
  simp

theorem checkBus_eq_fatal (c : Nat) (h8 : c.testBit 8 = true) :
    checkBus c = some .FAULT_CLASS_FATAL := by
  unfold checkBus
  split_ifs with gO g8 g9 g10
  · rfl
  · exact absurd (testBit_eq_false_of_guard c 8 g8) (by simp [h8])
  · exact absurd (testBit_eq_false_of_guard c 8 g8) (by simp [h8])
  · exact absurd (testBit_eq_false_of_guard c 8 g8) (by simp [h8])
  · exact absurd (and_mask_ne c 65280 8 (by decide) h8) (by simpa using gO)

theorem checkBus_eq_degraded (c : Nat) (h8 : c.testBit 8 = false)
    (h : c.testBit 9 = true ∨ c.testBit 10 = true) :
    checkBus c = some .FAULT_CLASS_DEGRADED := by
  unfold checkBus
  split_ifs with gO g8 g9 g10
  · exact absurd (testBit_eq_true_of_guard c 8 g8) (by simp [h8])
  · rfl
  · rfl
  · rcases h with hb | hb
    · exact absurd (testBit_eq_false_of_guard c 9 g9) (by simp [hb])
    · exact absurd (testBit_eq_false_of_guard c 10 g10) (by simp [hb])
  · rcases h with hb | hb
    · exact absurd (and_mask_ne c 65280 9 (by decide) hb) (by simpa using gO)
    · exact absurd (and_mask_ne c 65280 10 (by decide) hb) (by simpa using gO)

theorem checkUsage_eq_none (c : Nat) (h16 : c.testBit 16 = false) (h17 : c.testBit 17 = false)
    (h18 : c.testBit 18 = false) (h24 : c.testBit 24 = false) : checkUsage c = none := by
  simp only [checkUsage, and_shift_eq_zero c 16 h16, and_shift_eq_zero c 17 h17,
    and_shift_eq_zero c 18 h18, and_shift_eq_zero c 24 h24]
  simp

theorem checkUsage_eq_fatal (c : Nat)
    (h : c.testBit 16 = true ∨ c.testBit 17 = true ∨ c.testBit 18 = true) :
    checkUsage c = some .FAULT_CLASS_FATAL := by
  unfold checkUsage
  split_ifs with gO g16 g17 g18 g24
  · rfl
  · rfl
  · rfl
  · rcases h with hb | hb | hb
    · exact absurd (testBit_eq_false_of_guard c 16 g16) (by simp [hb])
    · exact absurd (testBit_eq_false_of_guard c 17 g17) (by simp [hb])
    · exact absurd (testBit_eq_false_of_guard c 18 g18) (by simp [hb])
  · rcases h with hb | hb | hb
    · exact absurd (testBit_eq_false_of_guard c 16 g16) (by simp [hb])
    · exact absurd (testBit_eq_false_of_guard c 17 g17) (by simp [hb])
    · exact absurd (testBit_eq_false_of_guard c 18 g18) (by simp [hb])
  · rcases h with hb | hb | hb
    · exact absurd (and_mask_ne c 4294901760 16 (by decide) hb) (by simpa using gO)
    · exact absurd (and_mask_ne c 4294901760 17 (by decide) hb) (by simpa using gO)
    · exact absurd (and_mask_ne c 4294901760 18 (by decide) hb) (by simpa using gO)

theorem checkUsage_eq_recoverable (c : Nat) (h16 : c.testBit 16 = false)
    (h17 : c.testBit 17 = false) (h18 : c.testBit 18 = false) (h24 : c.testBit 24 = true) :
    checkUsage c = some .FAULT_CLASS_RECOVERABLE := by
  unfold checkUsage
  split_ifs with gO g16 g17 g18 g24
  · exact absurd (testBit_eq_true_of_guard c 16 g16) (by simp [h16])
  · exact absurd (testBit_eq_true_of_guard c 17 g17) (by simp [h17])
  · exact absurd (testBit_eq_true_of_guard c 18 g18) (by simp [h18])
  · rfl
  · exact absurd (testBit_eq_false_of_guard c 24 g24) (by simp [h24])
  · exact absurd (and_mask_ne c 4294901760 24 (by decide) h24) (by simpa using gO)

/-! ## Ring-buffer lemmas for the fault log -/

theorem append_all_nil (st : FaultLogState) : append_all st [] = st := rfl

theorem append_all_cons (st : FaultLogState) (r : fault_record_t) (rs : List fault_record_t) :
    append_all st (r :: rs) = append_all (store_fault_record st r) rs := rfl

theorem append_all_count_mod (rs : List fault_record_t) : ∀ st : FaultLogState,
    st.count < 4294967296 →
    (append_all st rs).count = (st.count + rs.length) % 4294967296 := by
  induction rs with
  | nil =>
    intro st h
    rw [append_all_nil]
    exact (Nat.mod_eq_of_lt (by omega)).symm
  | cons r rs ih =>
    intro st h
    have hlt : (store_fault_record st r).count < 4294967296 := by
      simp only [store_fault_record, u32]
      exact Nat.mod_lt _ (by omega)
    rw [append_all_cons, ih (store_fault_record st r) hlt]
    simp only [store_fault_record, u32, List.length_cons]
    omega

theorem append_all_count_lt (rs : List fault_record_t) (st : FaultLogState)
    (hb : st.count + rs.length < 4294967296) :
    (append_all st rs).count = st.count + rs.length := by
  rw [append_all_count_mod rs st (by omega)]
  exact Nat.mod_eq_of_lt hb

theorem append_all_log_length (st : FaultLogState) (rs : List fault_record_t) :
    (append_all st rs).log.length = st.log.length := by
  induction rs generalizing st with
  | nil => rfl
  | cons r rs ih =>
    rw [append_all_cons, ih]
    simp [store_fault_record]

theorem getD_set_self (l : List fault_record_t) (i : Nat) (a d : fault_record_t)
    (h : i < l.length) : (l.set i a).getD i d = a := by
  rw [List.getD_eq_getElem?_getD, List.getElem?_set_eq_of_lt a h]
  rfl

theorem getD_set_ne (l : List fault_record_t) (i j : Nat) (a d : fault_record_t)
    (h : i ≠ j) : (l.set i a).getD j d = l.getD j d := by
  rw [List.getD_eq_getElem?_getD, List.getElem?_set_ne h, ← List.getD_eq_getElem?_getD]

theorem append_all_getD_untouched (rs : List fault_record_t) :
    ∀ (st : FaultLogState) (j : Nat) (d : fault_record_t),
    st.count + rs.length < 4294967296 →
    (∀ k, k < rs.length → (st.count + k) % FAULT_LOG_MAX_ENTRIES ≠ j) →
    (append_all st rs).log.getD j d = st.log.getD j d := by
  induction rs with
  | nil =>
    intro st j d _ _
    rfl
  | cons r rs ih =>
    intro st j d hb h
    have hcnt : (store_fault_record st r).count = st.count + 1 := by
      simp only [store_fault_record, u32]
      have : st.count + 1 < 4294967296 := by
        simp only [List.length_cons] at hb
        omega
      exact Nat.mod_eq_of_lt this
    have hb2 : (store_fault_record st r).count + rs.length < 4294967296 := by
      rw [hcnt]
      simp only [List.length_cons] at hb
      omega
    have hnext : ∀ k, k < rs.length →
        ((store_fault_record st r).count + k) % FAULT_LOG_MAX_ENTRIES ≠ j := by
      intro k hk
      have h2 := h (k + 1) (by simp; omega)
      rw [hcnt]
      have he : st.count + 1 + k = st.count + (k + 1) := by omega
      rw [he]
      exact h2
    have h0 : st.count % FAULT_LOG_MAX_ENTRIES ≠ j := by
      have := h 0 (by simp)
      simpa using this
    rw [append_all_cons, ih (store_fault_record st r) j d hb2 hnext]
    exact getD_set_ne st.log _ j (mk_stored r) d h0

theorem append_all_getD_slot (rs : List fault_record_t) :
    ∀ (st : FaultLogState) (k : Nat), k < rs.length →
    rs.length ≤ FAULT_LOG_MAX_ENTRIES + k → st.log.length = FAULT_LOG_MAX_ENTRIES →
    st.count + rs.length < 4294967296 →
    (append_all st rs).log.getD ((st.count + k) % FAULT_LOG_MAX_ENTRIES) zeroRec =
      mk_stored (rs.getD k zeroRec) := by
  induction rs with
  | nil =>
    intro st k hk
    exact absurd hk (by simp)
  | cons r rs ih =>
    intro st k hk hwin hlen hb
    have hcnt : (store_fault_record st r).count = st.count + 1 := by
      simp only [store_fault_record, u32]
      have : st.count + 1 < 4294967296 := by
        simp only [List.length_cons] at hb
        omega
      exact Nat.mod_eq_of_lt this
    cases k with
    | zero =>
      have hwin2 : rs.length ≤ 15 := by
        simp only [List.length_cons, FAULT_LOG_MAX_ENTRIES] at hwin
        omega
      have hb2 : (store_fault_record st r).count + rs.length < 4294967296 := by
        rw [hcnt]
        simp only [List.length_cons] at hb
        omega
      have huntouched : ∀ k2, k2 < rs.length →
          ((store_fault_record st r).count + k2) % FAULT_LOG_MAX_ENTRIES ≠
            (st.count + 0) % FAULT_LOG_MAX_ENTRIES := by
        intro k2 hk2
        rw [hcnt]
        simp only [FAULT_LOG_MAX_ENTRIES]
        omega
      rw [append_all_cons,
        append_all_getD_untouched rs (store_fault_record st r) _ _ hb2 huntouched]
      have hidx : st.count % FAULT_LOG_MAX_ENTRIES < st.log.length := by
        rw [hlen]
        exact Nat.mod_lt _ (by simp [FAULT_LOG_MAX_ENTRIES])
      simpa using getD_set_self st.log (st.count % FAULT_LOG_MAX_ENTRIES) (mk_stored r)
        zeroRec hidx
    | succ k =>
      have heq : st.count + (k + 1) = (store_fault_record st r).count + k := by
        rw [hcnt]
        omega
      rw [append_all_cons, heq, List.getD_cons_succ]
      refine ih (store_fault_record st r) k ?_ ?_ ?_ ?_
      · simp only [List.length_cons] at hk
        omega
      · simp only [List.length_cons] at hwin
        omega
      · simp [store_fault_record, List.length_set, hlen]
      · rw [hcnt]
        simp only [List.length_cons] at hb
        omega

theorem getD_range_map (f : Nat → fault_record_t) (n i : Nat) (d : fault_record_t)
    (h : i < n) : ((List.range n).map f).getD i d = f i := by
  rw [List.getD_eq_getElem?_getD, List.getElem?_map, List.getElem?_range h]
  rfl

theorem crc32_mk_stored (r : fault_record_t) :
    crc32_calculate (mk_stored r) = crc32_calculate r := rfl

theorem fault_get_log_fst (st : FaultLogState) (buffer : List fault_record_t)
    (max_count : Nat) :
    (fault_get_log st buffer max_count).1 =
      (List.range (read_count st max_count)).map
        (read_entry st buffer (read_count st max_count)) := rfl

/-! ## Handler trace facts -/

theorem handler_trace_eq (st : FaultLogState) (stack_frame : List Nat) (scb : SCBRegs)
    (tick : Nat) :
    (fault_handler_common st stack_frame scb tick).2.2 =
      [.storeRecord, .clearFaultStatus, escalation_action (analyze_cfsr scb.cfsr)] := rfl

theorem isEscalation_escalation_action (fc : fault_class_t) :
    isEscalation (escalation_action fc) = true := by
  cases fc <;> rfl

/-! ## Claim theorems -/

/-- Claim C1: for every fault-status word in which none of the bits tested by
the classifier (IACCVIOL, DACCVIOL, IBUSERR, PRECISERR, IMPRECISERR,
UNDEFINSTR, INVSTATE, INVPC, DIVBYZERO) is set, the classification is FATAL,
the escalation decision for FATAL/Critical is the safe state, and the fault
handler's escalation is the safe-state transition, never resume or degraded
mode. -/
theorem C1_unknown_cause_safe_state (cfsr : Nat)
    (h : ∀ k ∈ ([0, 1, 8, 9, 10, 16, 17, 18, 24] : List Nat), cfsr.testBit k = false) :
    analyze_cfsr cfsr = .FAULT_CLASS_FATAL ∧
    escalation_action .FAULT_CLASS_FATAL = .safeState ∧
    ∀ st stack_frame hfsr dfsr mmfar bfar afsr tick,
      (fault_handler_common st stack_frame ⟨cfsr, hfsr, dfsr, mmfar, bfar, afsr⟩ tick).2.2 =
        [.storeRecord, .clearFaultStatus, .safeState] := by
  have h0 := h 0 (by decide)
  have h1 := h 1 (by decide)
  have h8 := h 8 (by decide)
  have h9 := h 9 (by decide)
  have h10 := h 10 (by decide)
  have h16 := h 16 (by decide)
  have h17 := h 17 (by decide)
  have h18 := h 18 (by decide)
  have h24 := h 24 (by decide)
  have hA : analyze_cfsr cfsr = .FAULT_CLASS_FATAL := by
    simp [analyze_cfsr, checkMM_eq_none cfsr h0 h1, checkBus_eq_none cfsr h8 h9 h10,
      checkUsage_eq_none cfsr h16 h17 h18 h24]
  refine ⟨hA, rfl, ?_⟩
  intro st stack_frame hfsr dfsr mmfar bfar afsr tick
  rw [handler_trace_eq]
  simp [hA, escalation_action]

/-- Witness for C1 at the concrete word 0x4 (an MMFSR bit the classifier does
not test, hence an unknown cause): classification is FATAL and the handler
trace ends in the safe-state transition. -/
theorem C1_witness :
    analyze_cfsr 4 = .FAULT_CLASS_FATAL ∧
    (fault_handler_common init_log [] ⟨4, 0, 0, 0, 0, 0⟩ 0).2.2 =
      [.storeRecord, .clearFaultStatus, .safeState] :=
  ⟨(C1_unknown_cause_safe_state 4 (by decide)).1,
   (C1_unknown_cause_safe_state 4 (by decide)).2.2 init_log [] 0 0 0 0 0 0⟩

/-- Claim C2: the classifier tests the CFSR in fixed priority order. Any set
memory-access-violation bit (IACCVIOL bit 0 or DACCVIOL bit 1) classifies
FATAL regardless of all other bits; with those clear, IBUSERR (bit 8)
classifies FATAL; with bit 8 also clear, PRECISERR/IMPRECISERR (bits 9/10)
classify DEGRADED; with the whole bus group clear,
UNDEFINSTR/INVSTATE/INVPC (bits 16/17/18) classify FATAL and DIVBYZERO
(bit 24, with 16-18 clear) classifies RECOVERABLE. -/
theorem C2_classifier_priority (cfsr : Nat) :
    ((cfsr.testBit 0 = true ∨ cfsr.testBit 1 = true) →
      analyze_cfsr cfsr = .FAULT_CLASS_FATAL) ∧
    (cfsr.testBit 0 = false → cfsr.testBit 1 = false → cfsr.testBit 8 = true →
      analyze_cfsr cfsr = .FAULT_CLASS_FATAL) ∧
    (cfsr.testBit 0 = false → cfsr.testBit 1 = false → cfsr.testBit 8 = false →
      (cfsr.testBit 9 = true ∨ cfsr.testBit 10 = true) →
      analyze_cfsr cfsr = .FAULT_CLASS_DEGRADED) ∧
    (cfsr.testBit 0 = false → cfsr.testBit 1 = false → cfsr.testBit 8 = false →
      cfsr.testBit 9 = false → cfsr.testBit 10 = false →
      (cfsr.testBit 16 = true ∨ cfsr.testBit 17 = true ∨ cfsr.testBit 18 = true) →
      analyze_cfsr cfsr = .FAULT_CLASS_FATAL) ∧
    (cfsr.testBit 0 = false → cfsr.testBit 1 = false → cfsr.testBit 8 = false →
      cfsr.testBit 9 = false → cfsr.testBit 10 = false → cfsr.testBit 16 = false →
      cfsr.testBit 17 = false → cfsr.testBit 18 = false → cfsr.testBit 24 = true →
      analyze_cfsr cfsr = .FAULT_CLASS_RECOVERABLE) := by
  refine ⟨?_, ?_, ?_, ?_, ?_⟩
  · intro h
    simp [analyze_cfsr, checkMM_eq_fatal cfsr h]
  · intro h0 h1 h8
    simp [analyze_cfsr, checkMM_eq_none cfsr h0 h1, checkBus_eq_fatal cfsr h8]
  · intro h0 h1 h8 h
    simp [analyze_cfsr, checkMM_eq_none cfsr h0 h1, checkBus_eq_degraded cfsr h8 h]
  · intro h0 h1 h8 h9 h10 h
    simp [analyze_cfsr, checkMM_eq_none cfsr h0 h1, checkBus_eq_none cfsr h8 h9 h10,
      checkUsage_eq_fatal cfsr h]
  · intro h0 h1 h8 h9 h10 h16 h17 h18 h24
    simp [analyze_cfsr, checkMM_eq_none cfsr h0 h1, checkBus_eq_none cfsr h8 h9 h10,
      checkUsage_eq_recoverable cfsr h16 h17 h18 h24]

/-- Witness for C2 at concrete words: a data-access violation combined with a
precise bus error and a divide-by-zero is still FATAL (memory group wins), a
lone precise bus error is DEGRADED, and a lone divide-by-zero is
RECOVERABLE. -/
theorem C2_witness :
    analyze_cfsr 16777730 = .FAULT_CLASS_FATAL ∧
    analyze_cfsr 512 = .FAULT_CLASS_DEGRADED ∧
    analyze_cfsr 16777216 = .FAULT_CLASS_RECOVERABLE :=
  ⟨(C2_classifier_priority 16777730).1 (by decide),
   (C2_classifier_priority 512).2.2.1 (by decide) (by decide) (by decide) (by decide),
   (C2_classifier_priority 16777216).2.2.2.2 (by decide) (by decide) (by decide) (by decide)
     (by decide) (by decide) (by decide) (by decide) (by decide)⟩

/-- Claim C3: in every run of the common fault handler, the effect trace
contains an escalation, both the fault-record store and the fault-status
clear occur strictly before the first escalation (log-before-act), and the
resulting log state is exactly the captured record appended to the incoming
log — the handler never escalates with the record not yet stored. -/
theorem C3_log_before_act (st : FaultLogState) (stack_frame : List Nat) (scb : SCBRegs)
    (tick : Nat) :
    (∃ e ∈ (fault_handler_common st stack_frame scb tick).2.2, isEscalation e = true) ∧
    HandlerEvent.storeRecord ∈
      ((fault_handler_common st stack_frame scb tick).2.2.takeWhile
        fun e => !isEscalation e) ∧
    HandlerEvent.clearFaultStatus ∈
      ((fault_handler_common st stack_frame scb tick).2.2.takeWhile
        fun e => !isEscalation e) ∧
    (fault_handler_common st stack_frame scb tick).1 =
      store_fault_record st (capture_record stack_frame scb tick) := by
  have hTW : ((fault_handler_common st stack_frame scb tick).2.2.takeWhile
      fun e => !isEscalation e) = [.storeRecord, .clearFaultStatus] := by
    have hact := isEscalation_escalation_action (analyze_cfsr scb.cfsr)
    have hs : isEscalation .storeRecord = false := rfl
    have hc : isEscalation .clearFaultStatus = false := rfl
    rw [handler_trace_eq]
    simp [List.takeWhile_cons, hact, hs, hc]
  refine ⟨?_, ?_, ?_, rfl⟩
  · refine ⟨escalation_action (analyze_cfsr scb.cfsr), ?_, isEscalation_escalation_action _⟩
    rw [handler_trace_eq]
    simp
  · rw [hTW]; simp
  · rw [hTW]; simp

/-- Claim C9 (amended): across any sequence of fewer than 2^32 appends — so
the uint32 total-appended counter has not wrapped — a record appended to the
fault log and not yet overwritten by ring-buffer wraparound (it is among the
most recent 16 appends) is returned by a subsequent `fault_get_log` read of
the full capacity with all its fields intact: the slot holds exactly the
appended record with the checksum stored at append time, the recomputed
checksum matches it, and the entry is never replaced by the corruption
marker. (At 2^32 total appends the counter reads 0 again and the read
returns nothing; see the counterexample.) -/
theorem C9_log_roundtrip (l0 rs buffer : List fault_record_t) (k : Nat)
    (hl : l0.length = FAULT_LOG_MAX_ENTRIES)
    (hk : k < rs.length) (hwin : rs.length ≤ FAULT_LOG_MAX_ENTRIES + k)
    (hN : rs.length < 4294967296) :
    (fault_get_log (append_all ⟨l0, 0⟩ rs) buffer FAULT_LOG_MAX_ENTRIES).1.getD
        (k - (rs.length - FAULT_LOG_MAX_ENTRIES)) zeroRec = mk_stored (rs.getD k zeroRec) ∧
    crc32_calculate (mk_stored (rs.getD k zeroRec)) = (mk_stored (rs.getD k zeroRec)).crc := by
  refine ⟨?_, rfl⟩
  have hcount : (append_all ⟨l0, 0⟩ rs).count = rs.length := by
    have := append_all_count_lt rs ⟨l0, 0⟩ (by show 0 + rs.length < 4294967296; omega)
    simpa using this
  have hslot : (append_all ⟨l0, 0⟩ rs).log.getD (k % FAULT_LOG_MAX_ENTRIES) zeroRec =
      mk_stored (rs.getD k zeroRec) := by
    have := append_all_getD_slot rs ⟨l0, 0⟩ k hk hwin (by simpa using hl)
      (by show 0 + rs.length < 4294967296; omega)
    simpa using this
  have hrc : read_count (append_all ⟨l0, 0⟩ rs) FAULT_LOG_MAX_ENTRIES =
      if rs.length < FAULT_LOG_MAX_ENTRIES then rs.length else FAULT_LOG_MAX_ENTRIES := by
    unfold read_count
    rw [hcount]
  rw [fault_get_log_fst, hrc]
  by_cases hn : rs.length < FAULT_LOG_MAX_ENTRIES
  · rw [if_pos hn]
    have hi : k - (rs.length - FAULT_LOG_MAX_ENTRIES) = k := by
      simp only [FAULT_LOG_MAX_ENTRIES] at hn ⊢
      omega
    rw [hi, getD_range_map _ _ _ _ hk]
    unfold read_entry
    have hidx : ((append_all ⟨l0, 0⟩ rs).count - rs.length + k) % FAULT_LOG_MAX_ENTRIES =
        k % FAULT_LOG_MAX_ENTRIES := by
      rw [hcount]
      simp
    rw [hidx, hslot,
      if_pos (show (mk_stored (rs.getD k zeroRec)).crc =
        crc32_calculate (mk_stored (rs.getD k zeroRec)) from rfl)]
  · rw [if_neg hn]
    have hi_lt : k - (rs.length - FAULT_LOG_MAX_ENTRIES) < FAULT_LOG_MAX_ENTRIES := by
      simp only [FAULT_LOG_MAX_ENTRIES] at hn hwin ⊢
      omega
    rw [getD_range_map _ _ _ _ hi_lt]
    unfold read_entry
    have hidx : ((append_all ⟨l0, 0⟩ rs).count - FAULT_LOG_MAX_ENTRIES +
        (k - (rs.length - FAULT_LOG_MAX_ENTRIES))) % FAULT_LOG_MAX_ENTRIES =
        k % FAULT_LOG_MAX_ENTRIES := by
      rw [hcount]
      simp only [FAULT_LOG_MAX_ENTRIES] at hn hwin hk ⊢
      omega
    rw [hidx, hslot,
      if_pos (show (mk_stored (rs.getD k zeroRec)).crc =
        crc32_calculate (mk_stored (rs.getD k zeroRec)) from rfl)]

/-- Witness for C9: after appending three records to a fresh log, the read
returns the second one intact at window position 1, with a matching
checksum. -/
theorem C9_witness :
    (fault_get_log (append_all ⟨List.replicate 16 zeroRec, 0⟩
        [{ zeroRec with r0 := 11 }, { zeroRec with r0 := 22 }, { zeroRec with r0 := 33 }]) []
        FAULT_LOG_MAX_ENTRIES).1.getD 1 zeroRec = mk_stored { zeroRec with r0 := 22 } ∧
    crc32_calculate (mk_stored { zeroRec with r0 := 22 }) =
      (mk_stored { zeroRec with r0 := 22 }).crc :=
  C9_log_roundtrip (List.replicate 16 zeroRec)
    [{ zeroRec with r0 := 11 }, { zeroRec with r0 := 22 }, { zeroRec with r0 := 33 }] [] 1
    (by simp [FAULT_LOG_MAX_ENTRIES]) (by simp) (by simp [FAULT_LOG_MAX_ENTRIES]) (by simp)

/-- Claim C9 counterexample, instantiating the original unrestricted claim at
a concrete input: appending exactly 2^32 records to a fresh log wraps the
`uint32_t` total-appended counter `g_fault_count` back to 0, so
`fault_get_log` computes `count = min(0, 16) = 0` and returns no records at
all. The final append (index 2^32 - 1) is among the most recent 16 and its
slot was never overwritten, yet the claimed output entry at its window
position 15 = k - (total - 16) is absent: `getD` yields the default zeroRec,
which is not the stored record (their `crc` fields differ). -/
theorem C9_counterexample :
    (append_all ⟨List.replicate 16 zeroRec, 0⟩ (List.replicate 4294967296 zeroRec)).count
      = 0 ∧
    (fault_get_log (append_all ⟨List.replicate 16 zeroRec, 0⟩
        (List.replicate 4294967296 zeroRec)) [] FAULT_LOG_MAX_ENTRIES).1 = [] ∧
    ¬ ((fault_get_log (append_all ⟨List.replicate 16 zeroRec, 0⟩
          (List.replicate 4294967296 zeroRec)) [] FAULT_LOG_MAX_ENTRIES).1.getD 15 zeroRec =
        mk_stored zeroRec) := by
  have hcount : (append_all ⟨List.replicate 16 zeroRec, 0⟩
      (List.replicate 4294967296 zeroRec)).count = 0 := by
    rw [append_all_count_mod (List.replicate 4294967296 zeroRec)
        ⟨List.replicate 16 zeroRec, 0⟩ (by show (0 : Nat) < 4294967296; omega),
      List.length_replicate]
    decide
  have hrc : read_count (append_all ⟨List.replicate 16 zeroRec, 0⟩
      (List.replicate 4294967296 zeroRec)) FAULT_LOG_MAX_ENTRIES = 0 := by
    unfold read_count
    rw [hcount]
    simp [FAULT_LOG_MAX_ENTRIES]
  have hout : (fault_get_log (append_all ⟨List.replicate 16 zeroRec, 0⟩
      (List.replicate 4294967296 zeroRec)) [] FAULT_LOG_MAX_ENTRIES).1 = [] := by
    rw [fault_get_log_fst, hrc]
    rfl
  refine ⟨hcount, hout, ?_⟩
  rw [hout]
  decide

/-- The 17 distinct records appended for the C4 evaluation (timestamps 1-17). -/
def c4_records : List fault_record_t :=
  (List.range 17).map (fun j => { zeroRec with timestamp := j + 1 })

/-- Fault-log state after appending 17 records to a fresh log: one more than
the 16-slot capacity, so record 1 has been overwritten and 16 records are
stored. -/
def c4_state : FaultLogState := append_all init_log c4_records

/-- Claim C4 evaluated at the failing input (17 appends, `max_count = 17`):
the code returns `min(g_fault_count, max_count) = 17` entries — more than the
16 the ring stores, contradicting the claimed `min(max_count, stored)` — and
the returned window is not the most recent 17 records in chronological order:
its first entry is the newest record (timestamp 17, sitting in the reused
slot 0) and that same record appears again as the last entry. By contrast the
in-capacity read `fault_get_log(..., 16)` does start with the oldest record
of the stored window (timestamp 2), as the claim's capacity case states. -/
theorem C4_code_divergence :
    (fault_get_log c4_state (List.replicate 17 zeroRec) 17).2 = 17 ∧
    FAULT_LOG_MAX_ENTRIES < (fault_get_log c4_state (List.replicate 17 zeroRec) 17).2 ∧
    ((fault_get_log c4_state (List.replicate 17 zeroRec) 17).1.getD 0 zeroRec).timestamp = 17 ∧
    ((fault_get_log c4_state (List.replicate 17 zeroRec) 17).1.getD 16 zeroRec).timestamp = 17 ∧
    ((fault_get_log c4_state (List.replicate 16 zeroRec)
        FAULT_LOG_MAX_ENTRIES).1.getD 0 zeroRec).timestamp = 2 := by
  refine ⟨by decide, by decide, by decide, by decide, by decide⟩

/-- A record whose payload happens to carry `pc = 0xDEADBEEF` and
`timestamp = 0` — exactly the corruption-marker signature — with a fully
consistent checksum: a legitimately storable, valid record. -/
def marker_like_record : fault_record_t :=
  mk_stored { zeroRec with pc := 0xDEADBEEF, timestamp := 0 }

/-- The same record with its stored checksum damaged, so that `fault_get_log`
must treat the slot as corrupted. -/
def corrupted_record : fault_record_t :=
  { marker_like_record with crc := marker_like_record.crc + 1 }

/-- Log holding the valid marker-lookalike record in slot 0. -/
def stValid : FaultLogState := ⟨marker_like_record :: List.replicate 15 zeroRec, 1⟩

/-- Log holding the corrupted record in slot 0. -/
def stCorrupt : FaultLogState := ⟨corrupted_record :: List.replicate 15 zeroRec, 1⟩

/-- Claim C5 counterexample: the corruption marker is in-band. The valid
record `marker_like_record` passes CRC verification and is returned as
valid data, yet reading the log that holds the corrupted record produces the
byte-for-byte identical output (with a caller buffer that previously held
that record, as the marker path only overwrites `pc` and `timestamp`). A
corrupted entry is therefore conflatable with a valid record, refuting the
claimed distinct, unambiguous marker. -/
theorem C5_counterexample :
    marker_like_record.crc = crc32_calculate marker_like_record ∧
    corrupted_record.crc ≠ crc32_calculate corrupted_record ∧
    marker_like_record ≠ corrupted_record ∧
    (fault_get_log stValid [marker_like_record] 1).1 = [marker_like_record] ∧
    (fault_get_log stCorrupt [marker_like_record] 1).1 =
      (fault_get_log stValid [marker_like_record] 1).1 := by
  refine ⟨by decide, by decide, by decide, by decide, by decide⟩

/-- Claim C5 (amended): for every read window slot whose stored record fails
CRC recomputation, `fault_get_log` overwrites the `pc` field of the output
entry with `0xDEADBEEF` and its `timestamp` with 0 (the other output fields
keep the caller's buffer contents), never returns the stored record's
contents as valid data, and never drops the slot — the returned window keeps
its full `read_count` length. (The marker is in-band: it is not
distinguishable from a valid record that itself carries `pc = 0xDEADBEEF`
and `timestamp = 0`, per the counterexample.) -/
theorem C5_amended_marker (st : FaultLogState) (buffer : List fault_record_t)
    (max_count i : Nat) (hi : i < read_count st max_count)
    (hcorrupt : (st.log.getD ((st.count - read_count st max_count + i) %
        FAULT_LOG_MAX_ENTRIES) zeroRec).crc ≠
      crc32_calculate (st.log.getD ((st.count - read_count st max_count + i) %
        FAULT_LOG_MAX_ENTRIES) zeroRec)) :
    (fault_get_log st buffer max_count).1.getD i zeroRec =
      { buffer.getD i zeroRec with pc := 0xDEADBEEF, timestamp := 0 } ∧
    (fault_get_log st buffer max_count).1.length = read_count st max_count := by
  constructor
  · rw [fault_get_log_fst, getD_range_map _ _ _ _ hi]
    unfold read_entry
    rw [if_neg hcorrupt]
  · rw [fault_get_log_fst]
    simp

/-- Witness for the amended C5 at the corrupted one-record log: the output
slot is the marker built over the caller's zeroed buffer entry, and the
window length is preserved. -/
theorem C5_amended_witness :
    (fault_get_log stCorrupt [zeroRec] 1).1.getD 0 zeroRec =
      { zeroRec with pc := 0xDEADBEEF, timestamp := 0 } ∧
    (fault_get_log stCorrupt [zeroRec] 1).1.length = read_count stCorrupt 1 :=
  C5_amended_marker stCorrupt [zeroRec] 1 0 (by decide) (by decide)

/-! ## Watchdog lemmas -/

theorem kick_not_started (w : WatchdogState) (now : Nat) (h : w.m_started = false) :
    Watchdog_kick w now = (w, false, []) := by
  simp [Watchdog_kick, h]

theorem kick_kick_count_of_started (w : WatchdogState) (now : Nat)
    (h : w.m_started = true) :
    (Watchdog_kick w now).1.m_kick_count = u32 (w.m_kick_count + 1) := by
  by_cases hc : u32_sub now w.m_last_kick_time >
      w.m_timeout_ms / 2 + w.m_timeout_ms / 2 * WDT_TIMING_TOLERANCE_PERCENT / 100
  · simp [Watchdog_kick, h, hc]
  · simp [Watchdog_kick, h, hc]

theorem wdt_run_counters (ops : List WdtOp) : ∀ w : WatchdogState,
    w.m_late_kick_count ≤ w.m_kick_count →
    w.m_kick_count + ops.length < 4294967296 →
    (wdt_run w ops).m_late_kick_count ≤ (wdt_run w ops).m_kick_count ∧
    (wdt_run w ops).m_kick_count ≤ w.m_kick_count + ops.length := by
  induction ops with
  | nil => exact fun w h _ => ⟨h, Nat.le_refl _⟩
  | cons op ops ih =>
    intro w h hb
    have hb1 : w.m_kick_count + 1 + ops.length < 4294967296 := by
      simp only [List.length_cons] at hb
      omega
    have hstep : (wdt_step w op).m_late_kick_count ≤ (wdt_step w op).m_kick_count ∧
        (wdt_step w op).m_kick_count ≤ w.m_kick_count + 1 := by
      cases op with
      | start now =>
        cases hs : w.m_started
        · constructor <;> simp [wdt_step, Watchdog_start, hs] <;> omega
        · constructor <;> simp [wdt_step, Watchdog_start, hs] <;> omega
      | kick now =>
        cases hs : w.m_started
        · constructor <;> simp [wdt_step, Watchdog_kick, hs] <;> omega
        · have hk1 : u32 (w.m_kick_count + 1) = w.m_kick_count + 1 := by
            unfold u32
            exact Nat.mod_eq_of_lt (by omega)
          have hl1 : u32 (w.m_late_kick_count + 1) = w.m_late_kick_count + 1 := by
            unfold u32
            exact Nat.mod_eq_of_lt (by omega)
          by_cases hc : u32_sub now w.m_last_kick_time >
              w.m_timeout_ms / 2 + w.m_timeout_ms / 2 * WDT_TIMING_TOLERANCE_PERCENT / 100
          · constructor <;> simp [wdt_step, Watchdog_kick, hs, hc, hk1, hl1] <;> omega
          · constructor <;> simp [wdt_step, Watchdog_kick, hs, hc, hk1] <;> omega
    have hrun := ih (wdt_step w op) hstep.1 (by omega)
    have hrw : wdt_run w (op :: ops) = wdt_run (wdt_step w op) ops := rfl
    rw [hrw]
    refine ⟨hrun.1, ?_⟩
    have h2 := hrun.2
    simp only [List.length_cons]
    omega

/-- A kick within tolerance only stamps the kick time and increments the kick
counter. -/
theorem kick_onTime_state (w : WatchdogState) (now : Nat) (hst : w.m_started = true)
    (hontime : ¬ (u32_sub now w.m_last_kick_time >
      w.m_timeout_ms / 2 + w.m_timeout_ms / 2 * WDT_TIMING_TOLERANCE_PERCENT / 100)) :
    (Watchdog_kick w now).1 =
      { w with m_last_kick_time := u32 now, m_kick_count := u32 (w.m_kick_count + 1) } := by
  simp [Watchdog_kick, hst, hontime]

theorem wdt_run_cons (w : WatchdogState) (op : WdtOp) (ops : List WdtOp) :
    wdt_run w (op :: ops) = wdt_run (wdt_step w op) ops := rfl

theorem wdt_run_append_one (w : WatchdogState) (ops : List WdtOp) (op : WdtOp) :
    wdt_run w (ops ++ [op]) = wdt_step (wdt_run w ops) op := by
  unfold wdt_run
  rw [List.foldl_append]
  rfl

/-- A run of `n` on-time confirmations of a 100 ms armed watchdog, each 50 ms
after the previous one. -/
def onTimeOps (t0 n : Nat) : List WdtOp :=
  (List.range n).map (fun i => WdtOp.kick (t0 + 50 * (i + 1)))

theorem onTime_run (n t0 k l : Nat) :
    wdt_run ⟨100, true, t0 % 4294967296, k % 4294967296, l⟩ (onTimeOps t0 n) =
      ⟨100, true, (t0 + 50 * n) % 4294967296, (k + n) % 4294967296, l⟩ := by
  induction n with
  | zero => simp [onTimeOps, wdt_run]
  | succ n ih =>
    have hsplit : onTimeOps t0 (n + 1) =
        onTimeOps t0 n ++ [WdtOp.kick (t0 + 50 * (n + 1))] := by
      unfold onTimeOps
      rw [List.range_succ, List.map_append]
      rfl
    rw [hsplit, wdt_run_append_one, ih]
    have hontime : ¬ (u32_sub (t0 + 50 * (n + 1)) ((t0 + 50 * n) % 4294967296) >
        (100 : Nat) / 2 + (100 : Nat) / 2 * WDT_TIMING_TOLERANCE_PERCENT / 100) := by
      have he : u32_sub (t0 + 50 * (n + 1)) ((t0 + 50 * n) % 4294967296) = 50 := by
        unfold u32_sub u32
        omega
      rw [he]
      simp only [WDT_TIMING_TOLERANCE_PERCENT]
      omega
    have hstep := kick_onTime_state
      ⟨100, true, (t0 + 50 * n) % 4294967296, (k + n) % 4294967296, l⟩
      (t0 + 50 * (n + 1)) rfl hontime
    show (Watchdog_kick ⟨100, true, (t0 + 50 * n) % 4294967296, (k + n) % 4294967296, l⟩
      (t0 + 50 * (n + 1))).1 = _
    rw [hstep]
    simp [u32, WatchdogState.mk.injEq]
    all_goals omega

/-- Claim C6: for every armed watchdog, a confirmation whose elapsed time
since the previous confirmation is exactly `timeout / 2` never increments the
late-confirmation counter and reports good timing; a confirmation at
`timeout / 2 + tolerance + 1` (tolerance = 10% of `timeout / 2` in integer
arithmetic) always increments it — the stored counter becomes its `uint32_t`
successor, which is plainly the successor whenever the counter is not
saturated — and reports the violation; in every case the hardware countdown
is reset (the kick register is written, late or not) and the confirmation
itself never enters the safe state. -/
theorem C6_kick_timing (w : WatchdogState) (now : Nat) (harm : w.m_started = true) :
    (u32_sub now w.m_last_kick_time = w.m_timeout_ms / 2 →
      (Watchdog_kick w now).1.m_late_kick_count = w.m_late_kick_count ∧
      (Watchdog_kick w now).2.1 = true) ∧
    (u32_sub now w.m_last_kick_time =
        w.m_timeout_ms / 2 + w.m_timeout_ms / 2 * WDT_TIMING_TOLERANCE_PERCENT / 100 + 1 →
      (Watchdog_kick w now).1.m_late_kick_count = u32 (w.m_late_kick_count + 1) ∧
      (w.m_late_kick_count + 1 < 4294967296 →
        (Watchdog_kick w now).1.m_late_kick_count = w.m_late_kick_count + 1) ∧
      (Watchdog_kick w now).2.1 = false) ∧
    WdtEvent.hwKick ∈ (Watchdog_kick w now).2.2 ∧
    WdtEvent.safeStateEnter ∉ (Watchdog_kick w now).2.2 ∧
    (Watchdog_kick w now).1.m_last_kick_time = u32 now := by
  refine ⟨?_, ?_, ?_, ?_, ?_⟩
  · intro h
    have hc : ¬ (u32_sub now w.m_last_kick_time >
        w.m_timeout_ms / 2 + w.m_timeout_ms / 2 * WDT_TIMING_TOLERANCE_PERCENT / 100) := by
      rw [h]
      simp only [WDT_TIMING_TOLERANCE_PERCENT]
      omega
    simp [Watchdog_kick, harm, hc]
  · intro h
    have hc : u32_sub now w.m_last_kick_time >
        w.m_timeout_ms / 2 + w.m_timeout_ms / 2 * WDT_TIMING_TOLERANCE_PERCENT / 100 := by
      rw [h]
      simp only [WDT_TIMING_TOLERANCE_PERCENT]
      omega
    refine ⟨?_, ?_, ?_⟩
    · simp [Watchdog_kick, harm, hc]
    · intro hlt
      have hu : u32 (w.m_late_kick_count + 1) = w.m_late_kick_count + 1 := by
        unfold u32
        exact Nat.mod_eq_of_lt hlt
      simp [Watchdog_kick, harm, hc, hu]
    · simp [Watchdog_kick, harm, hc]
  · by_cases hc : u32_sub now w.m_last_kick_time >
        w.m_timeout_ms / 2 + w.m_timeout_ms / 2 * WDT_TIMING_TOLERANCE_PERCENT / 100
    · simp [Watchdog_kick, harm, hc]
    · simp [Watchdog_kick, harm, hc]
  · by_cases hc : u32_sub now w.m_last_kick_time >
        w.m_timeout_ms / 2 + w.m_timeout_ms / 2 * WDT_TIMING_TOLERANCE_PERCENT / 100
    · simp [Watchdog_kick, harm, hc]
    · simp [Watchdog_kick, harm, hc]
  · by_cases hc : u32_sub now w.m_last_kick_time >
        w.m_timeout_ms / 2 + w.m_timeout_ms / 2 * WDT_TIMING_TOLERANCE_PERCENT / 100
    · simp [Watchdog_kick, harm, hc]
    · simp [Watchdog_kick, harm, hc]

/-- Witness for C6 on a 100 ms armed watchdog last confirmed at t = 0: a kick
at 50 ms (exactly timeout/2) is on time, a kick at 56 ms (timeout/2 +
tolerance + 1 = 50 + 5 + 1) is counted late, and the hardware kick register
is written in the late case with no safe-state entry. -/
theorem C6_witness :
    (Watchdog_kick ⟨100, true, 0, 0, 0⟩ 50).1.m_late_kick_count = 0 ∧
    (Watchdog_kick ⟨100, true, 0, 0, 0⟩ 50).2.1 = true ∧
    (Watchdog_kick ⟨100, true, 0, 0, 0⟩ 56).1.m_late_kick_count = 1 ∧
    (Watchdog_kick ⟨100, true, 0, 0, 0⟩ 56).2.1 = false ∧
    WdtEvent.hwKick ∈ (Watchdog_kick ⟨100, true, 0, 0, 0⟩ 56).2.2 ∧
    WdtEvent.safeStateEnter ∉ (Watchdog_kick ⟨100, true, 0, 0, 0⟩ 56).2.2 :=
  ⟨((C6_kick_timing ⟨100, true, 0, 0, 0⟩ 50 rfl).1 (by decide)).1,
   ((C6_kick_timing ⟨100, true, 0, 0, 0⟩ 50 rfl).1 (by decide)).2,
   ((C6_kick_timing ⟨100, true, 0, 0, 0⟩ 56 rfl).2.1 (by decide)).2.1 (by decide),
   ((C6_kick_timing ⟨100, true, 0, 0, 0⟩ 56 rfl).2.1 (by decide)).2.2,
   (C6_kick_timing ⟨100, true, 0, 0, 0⟩ 56 rfl).2.2.1,
   (C6_kick_timing ⟨100, true, 0, 0, 0⟩ 56 rfl).2.2.2.1⟩

/-- Claim C7: calling start on an already-armed watchdog returns false,
reports the duplicate start through the WDT_ALREADY_STARTED diagnostic (not
silently), performs no hardware configuration, and leaves every member —
timeout, started flag, last confirmation time, confirmation count and
late-confirmation count — unchanged. -/
theorem C7_duplicate_start (w : WatchdogState) (now : Nat) (harm : w.m_started = true) :
    Watchdog_start w now = (w, false, [.warnAlreadyStarted]) ∧
    (Watchdog_start w now).1.m_timeout_ms = w.m_timeout_ms ∧
    (Watchdog_start w now).1.m_started = w.m_started ∧
    (Watchdog_start w now).1.m_last_kick_time = w.m_last_kick_time ∧
    (Watchdog_start w now).1.m_kick_count = w.m_kick_count ∧
    (Watchdog_start w now).1.m_late_kick_count = w.m_late_kick_count ∧
    ∀ t, WdtEvent.hwConfigure t ∉ (Watchdog_start w now).2.2 := by
  have h1 : Watchdog_start w now = (w, false, [.warnAlreadyStarted]) := by
    simp [Watchdog_start, harm]
  refine ⟨h1, by rw [h1], by rw [h1], by rw [h1], by rw [h1], by rw [h1], ?_⟩
  intro t
  rw [h1]
  simp

/-- Witness for C7 on a concrete armed watchdog with nonzero counters. -/
theorem C7_witness :
    Watchdog_start ⟨100, true, 40, 3, 1⟩ 77 =
      (⟨100, true, 40, 3, 1⟩, false, [.warnAlreadyStarted]) ∧
    ∀ t, WdtEvent.hwConfigure t ∉ (Watchdog_start ⟨100, true, 40, 3, 1⟩ 77).2.2 :=
  ⟨(C7_duplicate_start ⟨100, true, 40, 3, 1⟩ 77 rfl).1,
   (C7_duplicate_start ⟨100, true, 40, 3, 1⟩ 77 rfl).2.2.2.2.2.2⟩

/-- Claim C8 counterexample: the constructor reports the invalid 5 ms timeout
only through the diagnostic log — it produces no status result: the
constructed object state is identical to that of a valid construction with
the default 100 ms, so no caller can detect the configuration error from the
construction result, refuting "reported synchronously via a status result".
The defaulting is not silent: the diagnostic entry is logged. -/
theorem C8_counterexample :
    (Watchdog_construct 5).1 = (Watchdog_construct 100).1 ∧
    (Watchdog_construct 5).2 = [WdtEvent.errorInvalidTimeout 5] ∧
    (Watchdog_construct 100).2 = [] := by
  refine ⟨by decide, by decide, by decide⟩

/-- Claim C8 (amended): constructing a watchdog with a timeout outside the
valid 10-1000 ms range synchronously logs a WDT_INVALID_TIMEOUT diagnostic
carrying the offending value and defaults the timeout to 100 ms; the
configuration is never defaulted without that diagnostic, but no status
result is produced — the constructed state is exactly the state of a valid
default construction. -/
theorem C8_amended_construct (timeout_ms : Nat)
    (hbad : u32 timeout_ms < 10 ∨ u32 timeout_ms > 1000) :
    (Watchdog_construct timeout_ms).2 = [WdtEvent.errorInvalidTimeout (u32 timeout_ms)] ∧
    (Watchdog_construct timeout_ms).1.m_timeout_ms = WDT_DEFAULT_TIMEOUT_MS ∧
    (Watchdog_construct timeout_ms).1 = (Watchdog_construct WDT_DEFAULT_TIMEOUT_MS).1 := by
  simp only [Watchdog_construct]
  rw [if_pos hbad]
  refine ⟨rfl, rfl, rfl⟩

/-- Witness for the amended C8 at the invalid timeout 5 ms. -/
theorem C8_amended_witness :
    (Watchdog_construct 5).2 = [WdtEvent.errorInvalidTimeout (u32 5)] ∧
    (Watchdog_construct 5).1.m_timeout_ms = WDT_DEFAULT_TIMEOUT_MS ∧
    (Watchdog_construct 5).1 = (Watchdog_construct WDT_DEFAULT_TIMEOUT_MS).1 :=
  C8_amended_construct 5 (by decide)

/-- Claim C10 counterexample, refuting the unrestricted invariant at a
concrete reachable state: construct at 100 ms, start at t = 0, one late
confirmation at t = 56 (kick and late counters both reach 1), then
2^32 - 1 on-time confirmations every 50 ms. The `uint32_t` confirmation
counter wraps to 0 while the late counter still reads 1, so the
late-confirmation counter exceeds the confirmation counter. -/
theorem C10_counterexample :
    ¬ ((wdt_run (Watchdog_construct 100).1
          (WdtOp.start 0 :: WdtOp.kick 56 :: onTimeOps 56 4294967295)).m_late_kick_count ≤
        (wdt_run (Watchdog_construct 100).1
          (WdtOp.start 0 :: WdtOp.kick 56 :: onTimeOps 56 4294967295)).m_kick_count) := by
  have h0 : wdt_step (wdt_step (Watchdog_construct 100).1 (WdtOp.start 0)) (WdtOp.kick 56) =
      ⟨100, true, 56, 1, 1⟩ := by decide
  have h1 : wdt_run (Watchdog_construct 100).1
      (WdtOp.start 0 :: WdtOp.kick 56 :: onTimeOps 56 4294967295) =
      wdt_run ⟨100, true, 56, 1, 1⟩ (onTimeOps 56 4294967295) := by
    rw [wdt_run_cons, wdt_run_cons, h0]
  have h2 : wdt_run ⟨100, true, 56, 1, 1⟩ (onTimeOps 56 4294967295) =
      ⟨100, true, (56 + 50 * 4294967295) % 4294967296,
        (1 + 4294967295) % 4294967296, 1⟩ := by
    have h3 := onTime_run 4294967295 56 1 1
    have e1 : (56 : Nat) % 4294967296 = 56 := by decide
    have e2 : (1 : Nat) % 4294967296 = 1 := by decide
    rw [e1, e2] at h3
    exact h3
  rw [h1, h2]
  decide

/-- Claim C10 (amended): in every watchdog state reachable from construction
by a sequence of fewer than 2^32 start and kick calls — so the uint32
counters have not wrapped — the late-confirmation counter is at most the
confirmation counter; a kick on an armed watchdog sets the confirmation
counter to its `uint32_t` successor (an increment by exactly one modulo
2^32), and a kick on a disarmed watchdog leaves the whole state — in
particular both counters — unchanged. (After 2^32 or more confirmations the
stored counters wrap and the inequality can fail; see the counterexample.) -/
theorem C10_counter_invariant (timeout_ms : Nat) (ops : List WdtOp) (now : Nat) :
    (ops.length < 4294967296 →
      (wdt_run (Watchdog_construct timeout_ms).1 ops).m_late_kick_count ≤
        (wdt_run (Watchdog_construct timeout_ms).1 ops).m_kick_count) ∧
    ((wdt_run (Watchdog_construct timeout_ms).1 ops).m_started = true →
      (Watchdog_kick (wdt_run (Watchdog_construct timeout_ms).1 ops) now).1.m_kick_count =
        u32 ((wdt_run (Watchdog_construct timeout_ms).1 ops).m_kick_count + 1)) ∧
    ((wdt_run (Watchdog_construct timeout_ms).1 ops).m_started = false →
      (Watchdog_kick (wdt_run (Watchdog_construct timeout_ms).1 ops) now).1 =
        wdt_run (Watchdog_construct timeout_ms).1 ops) := by
  refine ⟨?_, ?_, ?_⟩
  · intro hlen
    have h0k : (Watchdog_construct timeout_ms).1.m_kick_count = 0 := by
      simp only [Watchdog_construct]
      split_ifs <;> rfl
    have h0l : (Watchdog_construct timeout_ms).1.m_late_kick_count ≤
        (Watchdog_construct timeout_ms).1.m_kick_count := by
      simp only [Watchdog_construct]
      split_ifs <;> simp
    exact (wdt_run_counters ops (Watchdog_construct timeout_ms).1 h0l
      (by rw [h0k]; omega)).1
  · intro h
    exact kick_kick_count_of_started _ now h
  · intro h
    have := kick_not_started (wdt_run (Watchdog_construct timeout_ms).1 ops) now h
    rw [this]

/-- Witness for the amended C10: after constructing at 100 ms and starting,
the invariant holds, an armed kick bumps the confirmation counter from 0 to
its successor, and a kick before start leaves the freshly constructed state
unchanged. -/
theorem C10_witness :
    (wdt_run (Watchdog_construct 100).1 [WdtOp.start 0]).m_late_kick_count ≤
      (wdt_run (Watchdog_construct 100).1 [WdtOp.start 0]).m_kick_count ∧
    (Watchdog_kick (wdt_run (Watchdog_construct 100).1 [WdtOp.start 0]) 50).1.m_kick_count =
      u32 ((wdt_run (Watchdog_construct 100).1 [WdtOp.start 0]).m_kick_count + 1) ∧
    (Watchdog_kick (wdt_run (Watchdog_construct 100).1 []) 50).1 =
      wdt_run (Watchdog_construct 100).1 [] :=
  ⟨(C10_counter_invariant 100 [WdtOp.start 0] 50).1 (by decide),
   (C10_counter_invariant 100 [WdtOp.start 0] 50).2.1 (by decide),
   (C10_counter_invariant 100 [] 50).2.2 (by decide)⟩

end Tracy
